import Mathlib

/-
Verification of the screen-capture recording pipeline of this repository.

The repository contains two recorder variants:
  a push-mode recorder (src/test.py, class ScreenRecorder over ScreenCaptureKit
  plus AVAssetWriter), and
  a pull-mode recorder (src/test2.py, class ScreenRecorder over mss plus cv2).

Each Python method is embedded as a Lean function on an explicit state record.
Asynchronous completion handlers are sequentialized in program order: a chain
of nested completion callbacks in the source becomes the sequential composition
of their bodies, and each entry point returns the list of observable events
(callback invocations, writer operations, log lines) it emits, in order.
Platform behaviour that the source merely invokes (whether setup steps
succeed, frame timestamps, writer readiness) is supplied as explicit
environment data.
-/

namespace Push

/-- Bundle identifiers excluded from capture, from the set literal
at src/test.py line 165: com.apple.MobileSMS and com.apple.iChat. -/
def excludedBundles : List String := ["com.apple.MobileSMS", "com.apple.iChat"]

/-- Which SCContentFilter initializer is available, mirroring the
hasattr chain at src/test.py lines 173-185. -/
inductive FilterAPI
| includingApplications
| includingWindows
| fallbackWholeDisplay
deriving DecidableEq, Repr

/-- The constructed content filter: either a display restricted to an
application include-list, or the whole display with nothing excluded
(the fallback initializer at src/test.py line 185). -/
inductive ContentFilter
| includeApps (apps : List String)
| wholeDisplay
deriving DecidableEq, Repr

/-- Filter construction from src/test.py lines 165-185: the include list
keeps every running application whose bundle identifier is not in the
excluded set; the fallback path captures the whole display and, per the
source comment, excludes nothing. -/
def buildFilter (api : FilterAPI) (apps : List String) : ContentFilter :=
  let included := apps.filter (fun a => !excludedBundles.contains a)
  match api with
  | .includingApplications => .includeApps included
  | .includingWindows => .includeApps included
  | .fallbackWholeDisplay => .wholeDisplay

/-- Platform contract for SCStream delivery: with an include-list filter the
stream delivers frames of exactly the listed applications; with a
whole-display filter it delivers frames of every running application. -/
def capturedApps (f : ContentFilter) (allApps : List String) : List String :=
  match f with
  | .includeApps included => included
  | .wholeDisplay => allApps

/-- The status ivar of the push recorder. Each constructor stands for the
exact string the source stores: idle for "Idle" (line 66), recordingTo n for
"Recording -> <n>" (line 281), savedInMovies for "Saved in Movies folder"
(line 286). -/
inductive PStatus
| idle
| recordingTo (name : String)
| savedInMovies
deriving DecidableEq, Repr

/-- Observable events of the push recorder: callback invocations, the
stop/finalize chain steps, and printed log lines. -/
inductive PEvent
| stopSource
| markFinished
| finalize (ok : Bool)
| notify (err : Option String)
| log (msg : String)
deriving DecidableEq, Repr

/-- One delivered sample buffer together with the platform answers the
handler at src/test.py lines 107-121 queries about it: its output type,
presentation timestamp, whether CMSampleBufferGetImageBuffer returns a
pixel buffer, whether the writer input isReadyForMoreMediaData, whether
the adaptor append returns true, and whether the writer has an error set. -/
structure Sample where
  isScreenType : Bool
  pts : Int
  hasPixbuf : Bool
  inputReady : Bool
  appendOk : Bool
  writerError : Bool
deriving DecidableEq, Repr

/-- State of the push recorder (ivars of class ScreenRecorder in src/test.py,
plus the bookkeeping a trace needs): isRecording and _sessionBegan ivars,
status ivar, whether the _stream and _writer ivars are set, the number of
output files currently opened by startWriting and not yet finalized, the
number of spawned start_ worker threads whose body has not run yet, the
stored content filter, the source time passed to startSessionAtSourceTime_,
the timestamps of frames the adaptor accepted, and the count of printed
append-failure warnings. -/
structure PState where
  status : PStatus
  isRecording : Bool
  sessionBegan : Bool
  streamSet : Bool
  writerSet : Bool
  openFiles : Nat
  pendingSetups : Nat
  filter_ : Option ContentFilter
  sessionStart : Option Int
  appended : List Int
  loggedAppendErrors : Nat
deriving DecidableEq, Repr

/-- The freshly initialized recorder, from init at src/test.py lines 61-69. -/
def initState : PState :=
  { status := .idle
    isRecording := false
    sessionBegan := false
    streamSet := false
    writerSet := false
    openFiles := 0
    pendingSetups := 0
    filter_ := none
    sessionStart := none
    appended := []
    loggedAppendErrors := 0 }

/-- Environment for one run of _set_up_capture: the error (if any) of the
shareable-content query, whether a display exists, the bundle identifiers of
the running applications, which filter initializer is available, the
AVAssetWriter init error, whether canAddInput_ holds, whether startWriting
succeeds, whether the capture start succeeds (the source starts capture via a
version branch at lines 254-273 and then calls startCaptureAndReturnError_
again at line 275; the two calls are collapsed into one overall outcome),
and the filename timestamp. -/
structure SetupEnv where
  contentErr : Option String
  hasDisplay : Bool
  apps : List String
  api : FilterAPI
  writerInitErr : Option String
  canAddInput : Bool
  startWritingOk : Bool
  startCaptureOk : Bool
  stamp : String
deriving Repr

/-- Embedding of _set_up_capture (src/test.py lines 130-282). Returns the
state after the run together with the message of the raised exception, if
one was raised; as in Python, mutations made before the raise point are
kept. The output file is opened by the successful startWriting call at
line 242. -/
def set_up_capture (env : SetupEnv) (s : PState) : PState × Option String :=
  match env.contentErr with
  | some e => (s, some e)
  | none =>
    if !env.hasDisplay then (s, some "No display found")
    else
      let filt := buildFilter env.api env.apps
      match env.writerInitErr with
      | some e => (s, some e)
      | none =>
        let s := { s with writerSet := true }
        if !env.canAddInput then (s, some "Cannot add video input")
        else if !env.startWritingOk then (s, some "Writer error")
        else
          let s := { s with openFiles := s.openFiles + 1 }
          let s := { s with streamSet := true, filter_ := some filt }
          if !env.startCaptureOk then (s, some "startCapture failed")
          else
            ({ s with status := .recordingTo ("Screen-" ++ env.stamp ++ ".mov") }, none)

/-- Embedding of the synchronous part of start_ (src/test.py lines 74-88):
if isRecording, fire callback(None) and return; otherwise spawn a worker
thread whose body has not run yet. -/
def start_ (s : PState) : PState × List PEvent :=
  if s.isRecording then (s, [.notify none])
  else ({ s with pendingSetups := s.pendingSetups + 1 }, [])

/-- Embedding of the body of the worker thread spawned by start_
(src/test.py lines 80-87): run _set_up_capture; on success set isRecording
and fire callback(None); on an exception fire callback(exc). -/
def runWork (env : SetupEnv) (s : PState) : PState × List PEvent :=
  if s.pendingSetups = 0 then (s, [])
  else
    let s0 := { s with pendingSetups := s.pendingSetups - 1 }
    match set_up_capture env s0 with
    | (s1, none) => ({ s1 with isRecording := true }, [.notify none])
    | (s1, some e) => (s1, [.notify (some e)])

/-- Embedding of _on_done (src/test.py lines 284-290): set status to the
saved message, clear isRecording and _sessionBegan, fire cb(None). -/
def _on_done (s : PState) : PState × List PEvent :=
  ({ s with status := .savedInMovies, isRecording := false, sessionBegan := false },
   [.notify none])

/-- Embedding of stop_ (src/test.py lines 90-102) with its completion chain
sequentialized: if not isRecording or the stream ivar is unset, fire
callback(None); otherwise stop the capture, mark the writer input finished,
finalize the writer (closing the output file whether or not finalize
succeeded), and run _on_done. The finalize outcome ok is supplied by the
environment; _on_done is invoked by finishWritingWithCompletionHandler_
regardless of it. -/
def stop_ (ok : Bool) (s : PState) : PState × List PEvent :=
  if !s.isRecording || !s.streamSet then (s, [.notify none])
  else
    let p := _on_done { s with openFiles := s.openFiles - 1 }
    (p.1, [.stopSource, .markFinished, .finalize ok] ++ p.2)

/-- Embedding of stream_didOutputSampleBuffer_ofOutputType_ (src/test.py
lines 107-121): ignore non-screen samples and samples delivered while not
recording; begin the writer session at the sample's presentation timestamp
if it was not begun yet; if the sample has a pixel buffer and the input is
ready, append it through the adaptor, and print a warning when the append
returned false and the writer reports an error. -/
def stream_didOutputSampleBuffer_ofOutputType_ (s : PState) (f : Sample) :
    PState × List PEvent :=
  if !f.isScreenType || !s.isRecording then (s, [])
  else
    let s1 :=
      if !s.sessionBegan then
        { s with sessionStart := some f.pts, sessionBegan := true }
      else s
    if f.hasPixbuf && f.inputReady then
      let s2 :=
        if f.appendOk then { s1 with appended := s1.appended ++ [f.pts] } else s1
      if !f.appendOk && f.writerError then
        ({ s2 with loggedAppendErrors := s2.loggedAppendErrors + 1 },
         [.log "adaptor append failed"])
      else (s2, [])
    else (s1, [])

/-- Embedding of stream_didStopWithError_ (src/test.py lines 123-125): print
the error when one is present; nothing else happens. -/
def stream_didStopWithError_ (s : PState) (err : Option String) :
    PState × List PEvent :=
  match err with
  | some e => (s, [.log ("Stream stopped with error: " ++ e)])
  | none => (s, [])

/-- Folding the sample handler over a list of delivered samples. -/
def handleSamples (s : PState) (fs : List Sample) : PState :=
  fs.foldl (fun a f => (stream_didOutputSampleBuffer_ofOutputType_ a f).1) s

/-- A setup environment in which every setup step succeeds, using the
include-list filter path. -/
def envOk : SetupEnv :=
  { contentErr := none
    hasDisplay := true
    apps := []
    api := .includingApplications
    writerInitErr := none
    canAddInput := true
    startWritingOk := true
    startCaptureOk := true
    stamp := "2026-01-01T00-00-00" }

/-- The recorder state after one Start whose setup succeeded: recording,
stream set, one output file open. -/
def recSt : PState := (runWork envOk (start_ initState).1).1

/-- Recognizer for log events, used to state that a handler emits nothing
but log lines. -/
def isLogEvent : PEvent → Bool
  | .log _ => true
  | _ => false

/-- A screen sample delivered while the writer input is not ready: the
handler drops it without appending. -/
def sampleDropped : Sample :=
  { isScreenType := true, pts := 5, hasPixbuf := true,
    inputReady := false, appendOk := true, writerError := false }

/-- A screen sample delivered while the writer input is ready, whose append
succeeds. -/
def sampleAppended : Sample :=
  { isScreenType := true, pts := 7, hasPixbuf := true,
    inputReady := true, appendOk := true, writerError := false }

/-- A setup environment in which every step succeeds up to the capture
start, which fails: the writer has already opened the output file when the
exception is raised. -/
def envCaptureFails : SetupEnv :=
  { contentErr := none
    hasDisplay := true
    apps := []
    api := .includingApplications
    writerInitErr := none
    canAddInput := true
    startWritingOk := true
    startCaptureOk := false
    stamp := "2026-01-01T00-00-00" }

/-- A setup environment on the fallback filter path (neither include-list
initializer available), with the Messages app running and every setup step
succeeding. -/
def envFallback : SetupEnv :=
  { contentErr := none
    hasDisplay := true
    apps := ["com.apple.MobileSMS", "com.example.editor"]
    api := .fallbackWholeDisplay
    writerInitErr := none
    canAddInput := true
    startWritingOk := true
    startCaptureOk := true
    stamp := "2026-01-01T00-00-00" }

end Push

namespace Pull

/-- The status_var of the pull recorder. Each constructor stands for the
exact string the source stores: initializing for "Initializing..." (line
100), stoppingMsg for "Stopping..." (line 207), recordingTo n for
"Recording -> <n>" (line 142), failed e for "Failed: <e>" (line 165),
saved n for "Saved: <n>" (line 191), stoppedMsg for "Stopped." (line 178),
stoppedBeforeStart for "Stopped before recording fully started." (line
196), idle for "Idle" (line 19). -/
inductive UiMsg
| idle
| initializing
| stoppingMsg
| recordingTo (filename : String)
| failed (err : String)
| saved (filename : String)
| stoppedMsg
| stoppedBeforeStart
deriving DecidableEq, Repr

/-- The startswith check of src/test2.py lines 183 and 194: exactly the
failed constructor carries a string beginning with the Failed prefix. -/
def UiMsg.isFailed : UiMsg → Bool
  | .failed _ => true
  | _ => false

/-- Observable events of the pull recorder worker: screen grabs, writer
appends, pacing sleeps, the writer release, status_var updates scheduled
during the run, the final status_var update of the finally block, and the
button-state reset. -/
inductive WEvent
| grabFrame
| writeFrame
| sleep (d : ℚ)
| releaseWriter
| notifyStatus (msg : UiMsg)
| notifyFinal (msg : UiMsg)
| uiStop
deriving DecidableEq, Repr

/-- State of the pull recorder (attributes of class ScreenRecorder in
src/test2.py): the is_recording flag, the video_writer attribute (some
opened records whether isOpened returned true), the status_var, the local
video_writer_initialized_successfully flag of _record_worker, the filepath
attribute (holding the output file name), whether the output file exists on
disk, the number of frames written, the effective pacing sleep of each loop
iteration, and the event trace. -/
structure WState where
  is_recording : Bool
  video_writer : Option Bool
  status_var : UiMsg
  initializedOk : Bool
  filepath : Option String
  fileExists : Bool
  framesWritten : Nat
  sleeps : List ℚ
  events : List WEvent
deriving DecidableEq, Repr

/-- State of the worker at entry: start_recording_thread_safe has set
is_recording and the Initializing status (src/test2.py lines 98-100), and
__init__ left the other attributes cleared (lines 19-24). -/
def initW : WState :=
  { is_recording := true
    video_writer := none
    status_var := .initializing
    initializedOk := false
    filepath := none
    fileExists := false
    framesWritten := 0
    sleeps := []
    events := [] }

/-- Environment for one run of _record_worker: the exception message (if
any) of _get_screen_dimensions, of mkdir, and of mss.mss(); the filename
timestamp; whether the cv2.VideoWriter opens; the number of loop iterations
that observe is_recording still true before the stop signal; the iteration
at which sct.grab raises, if any, with its message; and the measured
processing time of each iteration. -/
structure Env where
  dimsErr : Option String
  mkdirErr : Option String
  stamp : String
  writerOpens : Bool
  mssErr : Option String
  iterations : Nat
  grabFailAt : Option Nat
  grabMsg : String
  elapsed : Nat → ℚ

/-- The fps attribute, 20.0 at src/test2.py line 27. -/
def fps : ℚ := 20

/-- The pacing computation of src/test2.py lines 157-160: sleep_time is the
target interval minus the elapsed processing time, and time.sleep runs only
when sleep_time is positive, so the effective sleep duration is sleep_time
when positive and zero otherwise. -/
def pacingSleep (T elapsed : ℚ) : ℚ :=
  let sleep_time := T - elapsed
  if 0 < sleep_time then sleep_time else 0

/-- Embedding of the capture loop of _record_worker (src/test2.py lines
145-162). The first argument counts the iterations that still observe
is_recording true; i is the iteration index. Each iteration grabs one
frame (unless grab raises, which exits the loop with the exception),
writes it, and performs the pacing sleep. Returns the state and the
escaped exception message, if any. -/
def recordLoop (env : Env) : Nat → Nat → WState → WState × Option String
  | 0, _, s => (s, none)
  | n + 1, i, s =>
    if env.grabFailAt = some i then (s, some env.grabMsg)
    else
      let s := { s with events := s.events ++ [WEvent.grabFrame] }
      let s := { s with framesWritten := s.framesWritten + 1,
                        events := s.events ++ [WEvent.writeFrame] }
      let d := pacingSleep (1 / fps) (env.elapsed i)
      let s := { s with sleeps := s.sleeps ++ [d],
                        events := s.events ++ (if 0 < d then [WEvent.sleep d] else []) }
      recordLoop env n (i + 1) s

/-- Embedding of the try block of _record_worker (src/test2.py lines
109-162): get screen dimensions, create the Movies directory, build the
file name, construct the cv2.VideoWriter (which creates the output file
exactly when it opens), raise if it is not opened, mark initialization
successful, construct mss, schedule the Recording status, then run the
capture loop. Returns the state and the raised exception message, if any;
as in Python, mutations made before the raise point are kept. -/
def tryBlock (env : Env) (s : WState) : WState × Option String :=
  match env.dimsErr with
  | some e => (s, some e)
  | none =>
    match env.mkdirErr with
    | some e => (s, some e)
    | none =>
      let fname := "Screen-" ++ env.stamp ++ ".mp4"
      let s := { s with filepath := some fname }
      let s := { s with video_writer := some env.writerOpens,
                        fileExists := env.writerOpens }
      if !env.writerOpens then
        (s, some ("Cannot open video writer for " ++ fname ++ ". Check codec and permissions."))
      else
        let s := { s with initializedOk := true }
        match env.mssErr with
        | some e => (s, some e)
        | none =>
          let s := { s with status_var := .recordingTo fname,
                            events := s.events ++ [.notifyStatus (.recordingTo fname)] }
          recordLoop env env.iterations 0 s

/-- The final status computation of the finally block (src/test2.py lines
177-197): keep a Failed status; otherwise report Saved when the writer
initialized and the file exists; otherwise, when the writer never
initialized and the status is not Failed, report the stopped-early message;
otherwise the plain Stopped message. -/
def finalStatusMsg (s : WState) : UiMsg :=
  if s.status_var.isFailed then s.status_var
  else if s.initializedOk && s.filepath.isSome && s.fileExists then
    .saved (s.filepath.getD "")
  else if !s.initializedOk && !s.status_var.isFailed then .stoppedBeforeStart
  else .stoppedMsg

/-- Embedding of the finally block of _record_worker (src/test2.py lines
168-200): release the video writer when present and clear the attribute,
compute the final status, schedule the final status update and the
button-state reset, and clear is_recording. -/
def finallyBlock (s : WState) : WState :=
  let s :=
    match s.video_writer with
    | some _ => { s with video_writer := none, events := s.events ++ [.releaseWriter] }
    | none => s
  let msg := finalStatusMsg s
  { s with status_var := msg,
           events := s.events ++ [.notifyFinal msg, .uiStop],
           is_recording := false }

/-- The try and except blocks of _record_worker (src/test2.py lines
109-167): run the try block; if it raised, the except block stores the
Failed status and schedules its display. Note that this Failed status
update is scheduled before the finally block releases the writer. -/
def workerBody (env : Env) (s : WState) : WState :=
  match tryBlock env s with
  | (s1, some msg) =>
    { s1 with status_var := .failed msg,
              events := s1.events ++ [.notifyStatus (.failed msg)] }
  | (s1, none) => s1

/-- Embedding of _record_worker (src/test2.py lines 106-200): the try and
except blocks followed by the finally block. Scheduled status updates are
applied in program order. -/
def record_worker (env : Env) (s : WState) : WState :=
  finallyBlock (workerBody env s)

/-- The effective pacing sleeps of a failure-free run of the capture loop,
starting at iteration i and running n iterations. -/
def sleepsFrom (env : Env) : Nat → Nat → List ℚ
  | _, 0 => []
  | i, n + 1 => pacingSleep (1 / fps) (env.elapsed i) :: sleepsFrom env (i + 1) n

/-- Whether an event reports a Saved status to the observer: a scheduled
status update or the final status update of the finally block carrying a
saved message. -/
def carriesSaved : WEvent → Bool
  | .notifyStatus (.saved _) => true
  | .notifyFinal (.saved _) => true
  | _ => false

/-- Absence of any Saved report from an event list. -/
def noSaved (l : List WEvent) : Prop :=
  ∀ e ∈ l, carriesSaved e = false

/-- A worker environment in which setup succeeds but mss initialization
fails, after the writer already opened the output file. -/
def envMssFails : Env :=
  { dimsErr := none
    mkdirErr := none
    stamp := "2026-01-01T00-00-00"
    writerOpens := true
    mssErr := some "mss init failed"
    iterations := 0
    grabFailAt := none
    grabMsg := ""
    elapsed := fun _ => 0 }

/-- A worker environment in which everything succeeds and the stop signal
arrives after two loop iterations. -/
def cenv : Env :=
  { dimsErr := none
    mkdirErr := none
    stamp := "2026-01-01T00-00-00"
    writerOpens := true
    mssErr := none
    iterations := 2
    grabFailAt := none
    grabMsg := ""
    elapsed := fun k => if k = 0 then 1 / 40 else 1 / 10 }

end Pull

namespace Push

/-- The sample handler never changes the isRecording flag. -/
theorem handler_isRecording (s : PState) (f : Sample) :
    (stream_didOutputSampleBuffer_ofOutputType_ s f).1.isRecording = s.isRecording := by
  unfold stream_didOutputSampleBuffer_ofOutputType_
  repeat' split
  all_goals rfl

/-- Once the writer session has begun, the sample handler changes neither
the stored session start time nor the _sessionBegan flag. -/
theorem handler_preserves_session (s : PState) (f : Sample) (h : s.sessionBegan = true) :
    (stream_didOutputSampleBuffer_ofOutputType_ s f).1.sessionStart = s.sessionStart ∧
    (stream_didOutputSampleBuffer_ofOutputType_ s f).1.sessionBegan = true := by
  unfold stream_didOutputSampleBuffer_ofOutputType_
  simp only [h, Bool.not_true]
  repeat' split
  all_goals simp_all

/-- A non-screen sample leaves the state unchanged and emits nothing. -/
theorem handler_skips_non_screen (s : PState) (f : Sample) (h : f.isScreenType = false) :
    stream_didOutputSampleBuffer_ofOutputType_ s f = (s, []) := by
  unfold stream_didOutputSampleBuffer_ofOutputType_
  simp [h]

/-- The first screen sample delivered while recording with the session not
yet begun starts the writer session at its presentation timestamp. -/
theorem handler_begins_session (s : PState) (f : Sample)
    (h1 : s.isRecording = true) (h2 : s.sessionBegan = false) (h3 : f.isScreenType = true) :
    (stream_didOutputSampleBuffer_ofOutputType_ s f).1.sessionStart = some f.pts ∧
    (stream_didOutputSampleBuffer_ofOutputType_ s f).1.sessionBegan = true := by
  unfold stream_didOutputSampleBuffer_ofOutputType_
  simp only [h1, h2, h3, Bool.not_true, Bool.not_false]
  repeat' split
  all_goals simp_all

/-- Folding the handler over further samples preserves the session start
time once the session has begun. -/
theorem handleSamples_preserves_session (fs : List Sample) :
    ∀ s : PState, s.sessionBegan = true →
      (handleSamples s fs).sessionStart = s.sessionStart := by
  induction fs with
  | nil => intro s _; rfl
  | cons f fs ih =>
    intro s h
    have hp := handler_preserves_session s f h
    show (handleSamples (stream_didOutputSampleBuffer_ofOutputType_ s f).1 fs).sessionStart = _
    rw [ih _ hp.2, hp.1]

end Push

namespace Pull

/-- The finally block always clears the video_writer attribute and the
is_recording flag, whatever state the worker reached. -/
theorem finallyBlock_cleanup (s : WState) :
    (finallyBlock s).video_writer = none ∧ (finallyBlock s).is_recording = false := by
  cases h : s.video_writer <;> simp [finallyBlock, h]

/-- The events of the finally block: the prior trace, then the writer
release when a writer is present, then the final status notification and
the button reset, in that order. -/
theorem finallyBlock_events (s : WState) :
    (finallyBlock s).events =
      s.events ++ (if s.video_writer.isSome then [WEvent.releaseWriter] else [])
        ++ [WEvent.notifyFinal (finalStatusMsg s), WEvent.uiStop] := by
  cases h : s.video_writer <;>
    simp [finallyBlock, h, finalStatusMsg, UiMsg.isFailed]

/-- Event lists concatenate without introducing Saved reports. -/
theorem noSaved_append {a b : List WEvent} (ha : noSaved a) (hb : noSaved b) :
    noSaved (a ++ b) := by
  intro e he
  rcases List.mem_append.mp he with h | h
  exacts [ha e h, hb e h]

/-- The capture loop emits no Saved report. -/
theorem recordLoop_noSaved (env : Env) :
    ∀ (n i : Nat) (s : WState), noSaved s.events →
      noSaved ((recordLoop env n i s).1).events := by
  intro n
  induction n with
  | zero => intro i s h; exact h
  | succ n ih =>
    intro i s h
    rw [recordLoop]
    split
    · exact h
    · apply ih
      apply noSaved_append
      apply noSaved_append
      apply noSaved_append h
      · intro e he
        simp at he
        subst he
        rfl
      · intro e he
        simp at he
        subst he
        rfl
      · intro e he
        split at he
        · simp at he
          subst he
          rfl
        · simp at he

/-- The try block emits no Saved report. -/
theorem tryBlock_noSaved (env : Env) (s : WState) (h : noSaved s.events) :
    noSaved ((tryBlock env s).1).events := by
  unfold tryBlock
  split
  · exact h
  · split
    · exact h
    · split
      · exact h
      · split
        · exact h
        · apply recordLoop_noSaved
          apply noSaved_append h
          intro e he
          simp at he
          subst he
          rfl

/-- The try and except blocks together emit no Saved report: the Failed
status scheduled by the except path is not a Saved report. -/
theorem workerBody_noSaved (env : Env) (s : WState) (h : noSaved s.events) :
    noSaved (workerBody env s).events := by
  have ht := tryBlock_noSaved env s h
  unfold workerBody
  split
  · rename_i s1 msg heq
    rw [heq] at ht
    apply noSaved_append ht
    intro e he
    simp at he
    subst he
    rfl
  · rename_i s1 heq
    rw [heq] at ht
    exact ht

/-- A failure-free capture loop writes one frame per iteration and performs
per iteration exactly the pacing sleep of that iteration. -/
theorem recordLoop_run (env : Env) (hf : env.grabFailAt = none) :
    ∀ (n i : Nat) (s : WState),
      ((recordLoop env n i s).1.framesWritten = s.framesWritten + n ∧
       (recordLoop env n i s).1.sleeps = s.sleeps ++ sleepsFrom env i n) := by
  intro n
  induction n with
  | zero => intro i s; simp [recordLoop, sleepsFrom]
  | succ n ih =>
    intro i s
    rw [recordLoop]
    rw [hf]
    simp only [reduceCtorEq, if_false]
    constructor
    · rw [(ih (i + 1) _).1]
      show s.framesWritten + 1 + n = s.framesWritten + (n + 1)
      omega
    · rw [(ih (i + 1) _).2]
      show (s.sleeps ++ [pacingSleep (1 / fps) (env.elapsed i)]) ++ sleepsFrom env (i + 1) n
          = s.sleeps ++ sleepsFrom env i (n + 1)
      rw [List.append_assoc]
      rfl

end Pull

/-- C1 counterexample: the claim says a Start issued while a session is
live (Starting, Recording, or Stopping) is a no-op that never opens a
second output file concurrently. In the push recorder start_ guards only
on isRecording, which becomes true only after the asynchronous setup
completes; two Start calls issued during the Starting window leave two
setup workers pending, and after both workers run two output files are
open concurrently. -/
theorem c1_counterexample :
    ((Push.start_ (Push.start_ Push.initState).1).1.pendingSetups = 2) ∧
    ((Push.runWork Push.envOk
        (Push.runWork Push.envOk
          (Push.start_ (Push.start_ Push.initState).1).1).1).1.openFiles = 2) :=
  ⟨rfl, rfl⟩

/-- C1 (amended): a Start issued while isRecording is true (the Recording
and Stopping phases of the push recorder) is a no-op: the session state is
unchanged and the callback fires immediately with no error. A Start issued
during the Starting window, before setup completes, is not guarded and can
open a second output file concurrently. -/
theorem c1_start_noop_while_recording (s : Push.PState) (h : s.isRecording = true) :
    Push.start_ s = (s, [Push.PEvent.notify none]) := by
  simp [Push.start_, h]

/-- C1 witness: the no-op theorem applied to the concrete recording state. -/
theorem c1_witness :
    Push.recSt.isRecording = true ∧
    Push.start_ Push.recSt = (Push.recSt, [Push.PEvent.notify none]) :=
  ⟨rfl, c1_start_noop_while_recording Push.recSt rfl⟩

/-- C2 counterexample: the claim says the terminal status reported after
Stop reflects the finalize outcome, Failed when finalize errored. Stopping
the concrete recording session with a failing finalize still yields the
Saved status and a callback with no error: _on_done never inspects the
finalize outcome. -/
theorem c2_counterexample :
    (Push.stop_ false Push.recSt).1.status = Push.PStatus.savedInMovies ∧
    (Push.stop_ false Push.recSt).2 =
      [Push.PEvent.stopSource, Push.PEvent.markFinished,
       Push.PEvent.finalize false, Push.PEvent.notify none] :=
  ⟨rfl, rfl⟩

/-- C2 (amended): when Stop is called while Recording with the stream set,
the session always reaches the Saved status after finalize completes,
whatever the finalize outcome; isRecording and _sessionBegan are cleared. -/
theorem c2_stop_always_reports_saved (s : Push.PState) (ok : Bool)
    (h1 : s.isRecording = true) (h2 : s.streamSet = true) :
    (Push.stop_ ok s).1.status = Push.PStatus.savedInMovies ∧
    (Push.stop_ ok s).1.isRecording = false ∧
    (Push.stop_ ok s).1.sessionBegan = false := by
  simp [Push.stop_, Push._on_done, h1, h2]

/-- C2 witness: the amended theorem applied to the concrete recording
state with a successful finalize. -/
theorem c2_witness :
    (Push.recSt.isRecording = true ∧ Push.recSt.streamSet = true) ∧
    ((Push.stop_ true Push.recSt).1.status = Push.PStatus.savedInMovies ∧
     (Push.stop_ true Push.recSt).1.isRecording = false ∧
     (Push.stop_ true Push.recSt).1.sessionBegan = false) :=
  ⟨⟨rfl, rfl⟩, c2_stop_always_reports_saved Push.recSt true rfl rfl⟩

/-- C3 counterexample: the claim says an unsolicited source failure while
Recording is treated as an implicit Stop reaching terminal status Failed.
Delivering a non-null error to the concrete recording session leaves the
state completely unchanged, still recording, and emits only a log line:
no shutdown, no finalize, no Failed status. -/
theorem c3_counterexample :
    (Push.stream_didStopWithError_ Push.recSt (some "capture device lost")).1 = Push.recSt ∧
    Push.recSt.isRecording = true ∧
    (Push.stream_didStopWithError_ Push.recSt (some "capture device lost")).2 =
      [Push.PEvent.log "Stream stopped with error: capture device lost"] :=
  ⟨rfl, rfl, rfl⟩

/-- C3 (amended): the source-stopped delegate callback only logs the error
when one is present; the session state is unchanged and every emitted event
is a log line, so no shutdown sequence and no Failed transition occurs. -/
theorem c3_source_error_only_logged (s : Push.PState) (err : Option String) :
    (Push.stream_didStopWithError_ s err).1 = s ∧
    ((Push.stream_didStopWithError_ s err).2.all Push.isLogEvent) = true := by
  cases err <;> simp [Push.stream_didStopWithError_, Push.isLogEvent]

/-- C4 counterexample: the claim says a failed setup leaves no file behind.
With the writer opened and mss initialization then failing, the worker ends
with the Failed status, zero frames written, and the output file still in
existence: nothing deletes it. -/
theorem c4_counterexample :
    (Pull.record_worker Pull.envMssFails Pull.initW).fileExists = true ∧
    (Pull.record_worker Pull.envMssFails Pull.initW).framesWritten = 0 ∧
    (Pull.record_worker Pull.envMssFails Pull.initW).status_var =
      Pull.UiMsg.failed "mss init failed" :=
  ⟨rfl, rfl, rfl⟩

/-- C4 (amended): when setup fails after the writer opened the output file,
the session reports a Failed status and the writer handle is released, but
the output file is not deleted: it remains on disk with no frame written. -/
theorem c4_setup_failure_keeps_file (env : Pull.Env) (m : String)
    (h1 : env.dimsErr = none) (h2 : env.mkdirErr = none)
    (h3 : env.writerOpens = true) (h4 : env.mssErr = some m) :
    (Pull.record_worker env Pull.initW).status_var = Pull.UiMsg.failed m ∧
    (Pull.record_worker env Pull.initW).video_writer = none ∧
    (Pull.record_worker env Pull.initW).fileExists = true ∧
    (Pull.record_worker env Pull.initW).framesWritten = 0 := by
  simp [Pull.record_worker, Pull.workerBody, Pull.tryBlock, h1, h2, h3, h4,
        Pull.finallyBlock, Pull.finalStatusMsg, Pull.UiMsg.isFailed, Pull.initW]

/-- C4 witness: the amended theorem applied to the concrete environment in
which mss initialization fails after the writer opened. -/
theorem c4_witness :
    (Pull.envMssFails.dimsErr = none ∧ Pull.envMssFails.mkdirErr = none ∧
     Pull.envMssFails.writerOpens = true ∧
     Pull.envMssFails.mssErr = some "mss init failed") ∧
    ((Pull.record_worker Pull.envMssFails Pull.initW).status_var =
       Pull.UiMsg.failed "mss init failed" ∧
     (Pull.record_worker Pull.envMssFails Pull.initW).video_writer = none ∧
     (Pull.record_worker Pull.envMssFails Pull.initW).fileExists = true ∧
     (Pull.record_worker Pull.envMssFails Pull.initW).framesWritten = 0) :=
  ⟨⟨rfl, rfl, rfl, rfl⟩,
   c4_setup_failure_keeps_file Pull.envMssFails "mss init failed" rfl rfl rfl rfl⟩

/-- C5 counterexample: the claim says the writer clock t=0 equals the
timestamp of the first frame actually appended, not of a frame delivered
but never appended. Delivering a screen frame at timestamp 5 while the
input is not ready (so it is dropped) and then an appended frame at
timestamp 7 begins the session at 5, while the first appended timestamp
is 7. -/
theorem c5_counterexample :
    (Push.handleSamples Push.recSt [Push.sampleDropped, Push.sampleAppended]).sessionStart =
      some 5 ∧
    (Push.handleSamples Push.recSt [Push.sampleDropped, Push.sampleAppended]).appended =
      [7] ∧
    (5 : Int) ≠ 7 :=
  ⟨rfl, rfl, by decide⟩

/-- C5 (amended): the writer session clock is begun at most once per
session, at the first screen-type frame delivered while recording, and
t=0 equals that frame's presentation timestamp, whether or not that frame
was actually appended; once begun, the stored start time never changes. -/
theorem c5_clock_from_first_delivered :
    (∀ (s : Push.PState) (fs : List Push.Sample),
      s.isRecording = true → s.sessionBegan = false → s.sessionStart = none →
      (Push.handleSamples s fs).sessionStart =
        (fs.find? (fun f => f.isScreenType)).map Push.Sample.pts) ∧
    (∀ (s : Push.PState) (f : Push.Sample), s.sessionBegan = true →
      (Push.stream_didOutputSampleBuffer_ofOutputType_ s f).1.sessionStart =
        s.sessionStart) := by
  constructor
  · intro s fs
    induction fs generalizing s with
    | nil => intro _ _ h3; exact h3
    | cons f fs ih =>
      intro h1 h2 h3
      by_cases hf : f.isScreenType = true
      · have hb := Push.handler_begins_session s f h1 h2 hf
        show (Push.handleSamples
          (Push.stream_didOutputSampleBuffer_ofOutputType_ s f).1 fs).sessionStart = _
        rw [Push.handleSamples_preserves_session fs _ hb.2, hb.1]
        simp [List.find?_cons, hf]
      · have hf' : f.isScreenType = false := by
          cases hfs : f.isScreenType
          · rfl
          · exact absurd hfs hf
        have hskip := Push.handler_skips_non_screen s f hf'
        show (Push.handleSamples
          (Push.stream_didOutputSampleBuffer_ofOutputType_ s f).1 fs).sessionStart = _
        rw [hskip]
        rw [ih s h1 h2 h3]
        simp [List.find?_cons, hf']
  · intro s f h
    exact (Push.handler_preserves_session s f h).1

/-- C5 witness: the amended theorem applied to the concrete recording
state and the two concrete samples. -/
theorem c5_witness :
    (Push.recSt.isRecording = true ∧ Push.recSt.sessionBegan = false ∧
     Push.recSt.sessionStart = none) ∧
    (Push.handleSamples Push.recSt [Push.sampleDropped, Push.sampleAppended]).sessionStart =
      (([Push.sampleDropped, Push.sampleAppended].find? (fun f => f.isScreenType)).map
        Push.Sample.pts) :=
  ⟨⟨rfl, rfl, rfl⟩,
   c5_clock_from_first_delivered.1 Push.recSt [Push.sampleDropped, Push.sampleAppended]
     rfl rfl rfl⟩

/-- C6 counterexample: the claim says no Saved or Failed completion
notification is delivered while finalize is still in flight, on every
session. Pull recorder: when mss initialization fails after the writer
opened, the worker trace is exactly Failed status notification, then
writer release, then final status notification: the Failed notification
is delivered before the writer release, the finalize of this recorder.
Push recorder: when the capture start fails after startWriting opened the
output file, the worker fires the failure callback while one output file
is open, and no finalize event appears in the trace at all. -/
theorem c6_counterexample :
    (Pull.record_worker Pull.envMssFails Pull.initW).events =
      [Pull.WEvent.notifyStatus (Pull.UiMsg.failed "mss init failed"),
       Pull.WEvent.releaseWriter,
       Pull.WEvent.notifyFinal (Pull.UiMsg.failed "mss init failed"),
       Pull.WEvent.uiStop] ∧
    ((Push.runWork Push.envCaptureFails (Push.start_ Push.initState).1).2 =
       [Push.PEvent.notify (some "startCapture failed")] ∧
     (Push.runWork Push.envCaptureFails (Push.start_ Push.initState).1).1.openFiles = 1) :=
  ⟨rfl, rfl, rfl⟩

/-- C6 (amended): the Saved notification is delivered only after finalize
has fully completed, and Stop runs the full sequence before notifying:
a push Stop issued while recording emits exactly the stop-source,
mark-finished, finalize, notify sequence in that order; in the pull worker
the trace is the try/except events, then the writer release when a writer
is present, then the final status update, and the try/except events never
report Saved, so every Saved report follows the release. Failed
notifications, by contrast, can be delivered while the output file is not
yet finalized (see the counterexample). -/
theorem c6_saved_notify_only_after_finalize :
    (∀ (s : Push.PState) (ok : Bool), s.isRecording = true → s.streamSet = true →
      (Push.stop_ ok s).2 =
        [Push.PEvent.stopSource, Push.PEvent.markFinished,
         Push.PEvent.finalize ok, Push.PEvent.notify none]) ∧
    (∀ (env : Pull.Env) (s : Pull.WState),
      (Pull.record_worker env s).events =
        (Pull.workerBody env s).events
          ++ (if (Pull.workerBody env s).video_writer.isSome
              then [Pull.WEvent.releaseWriter] else [])
          ++ [Pull.WEvent.notifyFinal (Pull.finalStatusMsg (Pull.workerBody env s)),
              Pull.WEvent.uiStop]) ∧
    (∀ (env : Pull.Env) (s : Pull.WState), Pull.noSaved s.events →
      Pull.noSaved (Pull.workerBody env s).events) := by
  refine ⟨?_, ?_, Pull.workerBody_noSaved⟩
  · intro s ok h1 h2
    simp [Push.stop_, Push._on_done, h1, h2]
  · intro env s
    exact Pull.finallyBlock_events (Pull.workerBody env s)

/-- C6 witness: the push conjunct applied to the concrete recording state
with a successful finalize, and the no-Saved conjunct applied to the
concrete failing environment from the empty initial trace. -/
theorem c6_witness :
    (Push.recSt.isRecording = true ∧ Push.recSt.streamSet = true ∧
     Pull.noSaved Pull.initW.events) ∧
    ((Push.stop_ true Push.recSt).2 =
       [Push.PEvent.stopSource, Push.PEvent.markFinished,
        Push.PEvent.finalize true, Push.PEvent.notify none] ∧
     Pull.noSaved (Pull.workerBody Pull.envMssFails Pull.initW).events) :=
  ⟨⟨rfl, rfl, fun e he => absurd he (List.not_mem_nil e)⟩,
   c6_saved_notify_only_after_finalize.1 Push.recSt true rfl rfl,
   c6_saved_notify_only_after_finalize.2.2 Pull.envMssFails Pull.initW
     (fun e he => absurd he (List.not_mem_nil e))⟩

/-- C7: a screen frame delivered while the writer input is not ready for
more data is skipped, not appended and not queued; the session keeps
recording, and no append-failure warning is emitted for it. -/
theorem c7_not_ready_drops_frame (s : Push.PState) (f : Push.Sample)
    (h1 : s.isRecording = true) (h2 : f.isScreenType = true)
    (h3 : f.inputReady = false) :
    (Push.stream_didOutputSampleBuffer_ofOutputType_ s f).1.appended = s.appended ∧
    (Push.stream_didOutputSampleBuffer_ofOutputType_ s f).1.isRecording = true ∧
    (Push.stream_didOutputSampleBuffer_ofOutputType_ s f).1.loggedAppendErrors =
      s.loggedAppendErrors ∧
    (Push.stream_didOutputSampleBuffer_ofOutputType_ s f).2 = [] := by
  unfold Push.stream_didOutputSampleBuffer_ofOutputType_
  simp [h1, h2, h3]
  split <;> simp [h1]

/-- C7 witness: the theorem applied to the concrete recording state and the
concrete not-ready sample. -/
theorem c7_witness :
    (Push.recSt.isRecording = true ∧ Push.sampleDropped.isScreenType = true ∧
     Push.sampleDropped.inputReady = false) ∧
    ((Push.stream_didOutputSampleBuffer_ofOutputType_ Push.recSt Push.sampleDropped).1.appended =
       Push.recSt.appended ∧
     (Push.stream_didOutputSampleBuffer_ofOutputType_ Push.recSt Push.sampleDropped).1.isRecording =
       true ∧
     (Push.stream_didOutputSampleBuffer_ofOutputType_ Push.recSt Push.sampleDropped).1.loggedAppendErrors =
       Push.recSt.loggedAppendErrors ∧
     (Push.stream_didOutputSampleBuffer_ofOutputType_ Push.recSt Push.sampleDropped).2 = []) :=
  ⟨⟨rfl, rfl, rfl⟩, c7_not_ready_drops_frame Push.recSt Push.sampleDropped rfl rfl rfl⟩

/-- C8: the pacing computation sleeps for exactly max(0, T - elapsed) and
never a negative duration, and a failure-free run of the capture loop
performs exactly one capture and write per iteration, sequentially, with
per iteration exactly that pacing sleep. -/
theorem c8_pacing_controller :
    (∀ T e : ℚ, Pull.pacingSleep T e = max 0 (T - e) ∧ 0 ≤ Pull.pacingSleep T e) ∧
    (∀ (env : Pull.Env) (n i : Nat) (s : Pull.WState), env.grabFailAt = none →
      ((Pull.recordLoop env n i s).1.framesWritten = s.framesWritten + n ∧
       (Pull.recordLoop env n i s).1.sleeps = s.sleeps ++ Pull.sleepsFrom env i n)) := by
  constructor
  · intro T e
    have hd : Pull.pacingSleep T e = if 0 < T - e then T - e else 0 := rfl
    rw [hd]
    constructor
    · rcases le_or_lt (T - e) 0 with h | h
      · rw [if_neg (not_lt.mpr h), max_eq_left h]
      · rw [if_pos h, max_eq_right h.le]
    · split
      · linarith
      · exact le_refl 0
  · intro env n i s hf
    exact Pull.recordLoop_run env hf n i s

/-- C8 witness: the loop conjunct applied to the concrete failure-free
environment, running two iterations. -/
theorem c8_witness :
    Pull.cenv.grabFailAt = none ∧
    ((Pull.recordLoop Pull.cenv 2 0 Pull.initW).1.framesWritten =
       Pull.initW.framesWritten + 2 ∧
     (Pull.recordLoop Pull.cenv 2 0 Pull.initW).1.sleeps =
       Pull.initW.sleeps ++ Pull.sleepsFrom Pull.cenv 0 2) :=
  ⟨rfl, c8_pacing_controller.2 Pull.cenv 2 0 Pull.initW rfl⟩

/-- C9 counterexample: the claim says no frame of an excluded application is
ever delivered on every configure path. On the fallback configure path
(neither include-list initializer available) setup succeeds with the
whole-display filter, under which the excluded Messages bundle is among the
captured applications. -/
theorem c9_counterexample :
    (Push.set_up_capture Push.envFallback Push.initState).1.filter_ =
      some Push.ContentFilter.wholeDisplay ∧
    (Push.set_up_capture Push.envFallback Push.initState).2 = none ∧
    "com.apple.MobileSMS" ∈
      Push.capturedApps Push.ContentFilter.wholeDisplay Push.envFallback.apps ∧
    "com.apple.MobileSMS" ∈ Push.excludedBundles := by
  refine ⟨rfl, rfl, ?_, ?_⟩ <;>
    simp [Push.capturedApps, Push.envFallback, Push.excludedBundles]

/-- C9 (amended): on the two include-list configure paths the exclusion set
is applied at configure time and no excluded application is captured; on
the fallback path the whole display is captured and the exclusion set is
not applied. -/
theorem c9_exclusion_on_include_paths (api : Push.FilterAPI) (apps : List String)
    (b : String) (h1 : b ∈ Push.excludedBundles)
    (h2 : api ≠ Push.FilterAPI.fallbackWholeDisplay) :
    b ∉ Push.capturedApps (Push.buildFilter api apps) apps := by
  have hc : Push.excludedBundles.contains b = true := List.elem_eq_true_of_mem h1
  cases api with
  | fallbackWholeDisplay => exact absurd rfl h2
  | includingApplications =>
    simp [Push.buildFilter, Push.capturedApps, List.mem_filter, hc]
    exact fun _ => h1
  | includingWindows =>
    simp [Push.buildFilter, Push.capturedApps, List.mem_filter, hc]
    exact fun _ => h1

/-- C9 witness: the amended theorem applied to the Messages bundle on the
include-applications path with a concrete application list. -/
theorem c9_witness :
    ("com.apple.MobileSMS" ∈ Push.excludedBundles ∧
     Push.FilterAPI.includingApplications ≠ Push.FilterAPI.fallbackWholeDisplay) ∧
    "com.apple.MobileSMS" ∉
      Push.capturedApps
        (Push.buildFilter Push.FilterAPI.includingApplications
          ["com.apple.MobileSMS", "com.example.editor"])
        ["com.apple.MobileSMS", "com.example.editor"] :=
  ⟨⟨by simp [Push.excludedBundles], by decide⟩,
   c9_exclusion_on_include_paths Push.FilterAPI.includingApplications
     ["com.apple.MobileSMS", "com.example.editor"] "com.apple.MobileSMS"
     (by simp [Push.excludedBundles]) (by decide)⟩

/-- C10: whenever the pull-mode recording worker terminates, by normal
stop, setup failure, or an exception raised mid-loop, the video writer has
been released and cleared and the is_recording flag is false. -/
theorem c10_worker_cleanup (env : Pull.Env) (s : Pull.WState) :
    (Pull.record_worker env s).video_writer = none ∧
    (Pull.record_worker env s).is_recording = false := by
  simp only [Pull.record_worker]
  exact Pull.finallyBlock_cleanup _
